import Mathlib

/-!
Verification of the CitySim agent-based digital-governance simulation.

The Python sources under abm_simulation are shallowly embedded here: every
numeric value is a rational number, Python dictionaries with string keys
become association lists that preserve insertion order, optional dictionary
fields become Option values, and the process-wide random source becomes an
explicit stream of rationals indexed by the number of draws consumed so far
(each call to the random module consumes exactly one stream element, and a
draw that Python never evaluates never advances the index).  Fallible code
returns Option, with none standing for a raised exception.
-/

namespace CitySim

/-- Lookup in a string-keyed association list with a default, mirroring
Python dict.get(key, default). -/
def getD (m : List (String × ℚ)) (k : String) (d : ℚ) : ℚ :=
  match m.find? (fun p => p.1 == k) with
  | some p => p.2
  | none => d

/-- Assignment in a string-keyed association list, mirroring Python
dict assignment: an existing key is updated in place, a new key is
appended at the end. -/
def setK (m : List (String × ℚ)) (k : String) (v : ℚ) : List (String × ℚ) :=
  if (m.find? (fun p => p.1 == k)).isSome then
    m.map (fun p => if p.1 == k then (k, v) else p)
  else m ++ [(k, v)]

/-- One interaction record.  Fields that Python reads with dict.get and may
be absent are Option valued. -/
structure Interaction where
  itype : Option String := none
  participants : List String := []
  outcome : Option String := none
  effect : Option String := none
  area : Option String := none
  service_kind : Option String := none
  compliance : Option Bool := none
  response_time : Option ℚ := none
  resolved : Option Bool := none
  job_status : Option String := none
  cost : Option ℚ := none
deriving Repr, DecidableEq

/-- The Environment state (environment.py).  The service_quality dict always
holds exactly the three areas, so it is three named fields; the two entries
of infrastructure_utilization likewise. -/
structure Environment where
  digital_infrastructure : List (String × ℚ)
  physical_infrastructure : List (String × ℚ)
  service_availability : ℚ
  system_load : ℚ
  emergency_status : Bool
  sq_core : ℚ
  sq_fringe : ℚ
  sq_rural : ℚ
  util_digital : ℚ
  util_physical : ℚ
  update_count : ℕ
deriving Repr, DecidableEq

/-- Environment.__init__: dynamic state as initialised in the constructor,
with the two infrastructure maps coming from the configuration. -/
def envInit (digital physical : List (String × ℚ)) : Environment :=
  { digital_infrastructure := digital
    physical_infrastructure := physical
    service_availability := 1
    system_load := 1/2
    emergency_status := false
    sq_core := 9/10
    sq_fringe := 7/10
    sq_rural := 3/5
    util_digital := 3/5
    util_physical := 7/10
    update_count := 0 }

namespace Environment

/-- The interaction types counted as service requests by _update_system_load. -/
def isServiceRequestType (i : Interaction) : Bool :=
  i.itype == some "service_request" || i.itype == some "data_request" ||
    i.itype == some "service_use"

/-- _update_system_load: exponential smoothing of the load toward the
request count over an assumed capacity of 50, clamped to the unit interval. -/
def updateSystemLoad (load : ℚ) (interactions : List Interaction) : ℚ :=
  let service_requests : ℚ := (interactions.filter isServiceRequestType).length
  let load_factor := min 1 (service_requests / 50)
  max 0 (min 1 (7/10 * load + 3/10 * load_factor))

/-- _update_service_availability: load-driven delta, minus 0.1 per
system_failure outcome, clamped to the unit interval. -/
def updateServiceAvailability (load avail : ℚ) (interactions : List Interaction) : ℚ :=
  let base_change : ℚ := if load > 4/5 then -(1/20) else if load < 3/10 then 1/50 else 0
  let failures : ℚ :=
    (interactions.filter (fun i => i.outcome == some "system_failure")).length
  max 0 (min 1 (avail + (base_change - 1/10 * failures)))

/-- _check_emergency_events: the first draw triggers an emergency whenever it
is below 0.02, regardless of the current flag, multiplying availability by
0.7; only otherwise, and only while in emergency, a second draw below 0.3
resolves the emergency.  Returns the new flag, the new availability and the
index of the next unconsumed draw. -/
def checkEmergencyEvents (emergency : Bool) (avail : ℚ) (rand : ℕ → ℚ) (k : ℕ) :
    Bool × ℚ × ℕ :=
  if rand k < 1/50 then (true, avail * (7/10), k + 1)
  else if emergency then
    (if rand (k + 1) < 3/10 then false else true, avail, k + 2)
  else (false, avail, k + 1)

/-- _update_infrastructure_utilization: smoothing toward the digital and
physical shares of this round, untouched when the round is empty. -/
def updateInfrastructureUtilization (ud up : ℚ) (interactions : List Interaction) :
    ℚ × ℚ :=
  let total := interactions.length
  if 0 < total then
    let digital_usage : ℚ :=
      (interactions.filter (fun i => i.service_kind == some "digital")).length
    let physical_usage : ℚ :=
      (interactions.filter (fun i => i.service_kind == some "physical")).length
    (4/5 * ud + 1/5 * (digital_usage / total),
     4/5 * up + 1/5 * (physical_usage / total))
  else (ud, up)

/-- The area an interaction is grouped under, defaulting to core_area. -/
def areaOf (i : Interaction) : String := i.area.getD "core_area"

/-- One area of _update_service_quality: nudge toward a 70 percent success
target, clamped to the unit interval; empty buckets leave quality unchanged. -/
def qualityStep (q : ℚ) (bucket : List Interaction) : ℚ :=
  if bucket.isEmpty then q
  else
    let successes : ℚ := (bucket.filter (fun i => i.outcome == some "success")).length
    let success_rate := successes / (bucket.length : ℚ)
    max 0 (min 1 (q + (success_rate - 7/10) * (1/20)))

/-- _update_service_quality over the three fixed areas. -/
def updateServiceQuality (sqc sqf sqr : ℚ) (interactions : List Interaction) :
    ℚ × ℚ × ℚ :=
  (qualityStep sqc (interactions.filter (fun i => areaOf i == "core_area")),
   qualityStep sqf (interactions.filter (fun i => areaOf i == "urban_rural_fringe")),
   qualityStep sqr (interactions.filter (fun i => areaOf i == "rural")))

/-- The first loop of _apply_random_changes: every digital infrastructure
entry, in insertion order, receives one uniform draw and is clamped to
[0, 100]. -/
def driftDigital (l : List (String × ℚ)) (rand : ℕ → ℚ) (k : ℕ) :
    List (String × ℚ) × ℕ :=
  match l with
  | [] => ([], k)
  | (a, v) :: rest =>
    let v2 := max 0 (min 100 (v + rand k))
    let (rest2, k2) := driftDigital rest rand (k + 1)
    ((a, v2) :: rest2, k2)

/-- _apply_random_changes: drift of the digital map, then a 2 percent decay
of every digital entry while in emergency.  The physical map is not touched
by this method. -/
def applyRandomChanges (digital : List (String × ℚ)) (emergency : Bool)
    (rand : ℕ → ℚ) (k : ℕ) : List (String × ℚ) × ℕ :=
  let (d, k2) := driftDigital digital rand k
  (if emergency then d.map (fun p => (p.1, p.2 * (49/50))) else d, k2)

/-- Environment.update: the six sub-updates in source order, threading the
random stream through the emergency check and the random changes. -/
def update (e : Environment) (interactions : List Interaction) (rand : ℕ → ℚ)
    (k : ℕ) : Environment × ℕ :=
  let load := updateSystemLoad e.system_load interactions
  let avail1 := updateServiceAvailability load e.service_availability interactions
  let (em, avail2, k1) := checkEmergencyEvents e.emergency_status avail1 rand k
  let (ud, up) :=
    updateInfrastructureUtilization e.util_digital e.util_physical interactions
  let (sqc, sqf, sqr) := updateServiceQuality e.sq_core e.sq_fringe e.sq_rural interactions
  let (dig, k2) := applyRandomChanges e.digital_infrastructure em rand k1
  ({ e with
      update_count := e.update_count + 1
      system_load := load
      service_availability := avail2
      emergency_status := em
      util_digital := ud
      util_physical := up
      sq_core := sqc
      sq_fringe := sqf
      sq_rural := sqr
      digital_infrastructure := dig }, k2)

end Environment

/-- The government agent: string-keyed attribute and state maps as in
agent.py, plus the policy_modifiers side table the PolicyEngine installs. -/
structure Government where
  attributes : List (String × ℚ) := []
  state : List (String × ℚ) := []
  policy_modifiers : List (String × List (String × ℚ)) := []
deriving Repr, DecidableEq

/-- An enterprise agent.  The categorical attribute data_collection_strategy
is string valued in the source, so it is carried as its own field next to
the numeric attribute map. -/
structure Enterprise where
  agent_id : String := "enterprise"
  attributes : List (String × ℚ) := []
  state : List (String × ℚ) := []
  data_collection_strategy : String := "compliant"
deriving Repr, DecidableEq

/-- A resident agent with its fixed area and the behavior_modifiers side
table the PolicyEngine installs. -/
structure Resident where
  agent_id : String := "resident"
  area : String := "core_area"
  attributes : List (String × ℚ) := []
  state : List (String × ℚ) := []
  behavior_modifiers : List (String × ℚ) := []
deriving Repr, DecidableEq

/-- An interaction rule entry; both fields are read with dict.get in the
source, so both are optional. -/
structure Rule where
  probability : Option ℚ := none
  effect : Option String := none
deriving Repr, DecidableEq

/-- A decision produced by the decision provider. -/
structure Decision where
  action : Option String := none
  target : Option String := none
deriving Repr, DecidableEq

/-- Rule-table lookup, mirroring rules.get(name). -/
def getRule (rules : List (String × Rule)) (k : String) : Option Rule :=
  (rules.find? (fun p => p.1 == k)).map (fun p => p.2)

namespace InteractionEngine

/-- _update_government_state: resource_utilization rises by 0.01 on success
and falls by 0.01 on failed or violation outcomes, clamped to [0, 1]. -/
def updateGovernmentState (g : Government) (interactions : List Interaction) :
    Government :=
  interactions.foldl
    (fun g i =>
      let outcome := i.outcome.getD "neutral"
      if outcome = "success" then
        let s1 := setK g.state "resource_utilization"
          (min 1 (getD g.state "resource_utilization" (7/10) + 1/100))
        { g with state := s1 }
      else if outcome = "failed" ∨ outcome = "violation" then
        let s1 := setK g.state "resource_utilization"
          (max 0 (getD g.state "resource_utilization" (7/10) - 1/100))
        { g with state := s1 }
      else g)
    g

/-- _update_enterprise_state: only success outcomes change anything —
procurement_cooperation raises innovation_level by 2 (capped at 100) and
service_supply raises market_share by 0.01 (capped at 1). -/
def updateEnterpriseState (e : Enterprise) (interactions : List Interaction) :
    Enterprise :=
  interactions.foldl
    (fun e i =>
      let outcome := i.outcome.getD "neutral"
      let t := i.itype.getD ""
      if outcome = "success" then
        if t = "procurement_cooperation" then
          let s1 := setK e.state "innovation_level"
            (min 100 (getD e.state "innovation_level" 50 + 2))
          { e with state := s1 }
        else if t = "service_supply" then
          let s1 := setK e.state "market_share"
            (min 1 (getD e.state "market_share" (1/10) + 1/100))
          { e with state := s1 }
        else e
      else e)
    e

/-- _update_resident_state: success raises satisfaction (service_provision)
or trust (demand_response); failed or ignored lowers satisfaction and, for
demand_response, trust, each clamped to its bounds. -/
def updateResidentState (r : Resident) (interactions : List Interaction) :
    Resident :=
  interactions.foldl
    (fun r i =>
      let outcome := i.outcome.getD "neutral"
      let t := i.itype.getD ""
      if outcome = "success" then
        if t = "service_provision" then
          let s1 := setK r.state "satisfaction"
            (min 5 (getD r.state "satisfaction" 3 + 1/10))
          { r with state := s1 }
        else if t = "demand_response" then
          let a1 := setK r.attributes "trust_in_government"
            (min 100 (getD r.attributes "trust_in_government" 80 + 1))
          { r with attributes := a1 }
        else r
      else if outcome = "failed" ∨ outcome = "ignored" then
        let s1 := setK r.state "satisfaction"
          (max 1 (getD r.state "satisfaction" 3 - 1/20))
        let r1 := { r with state := s1 }
        if t = "demand_response" then
          let a1 := setK r1.attributes "trust_in_government"
            (max 0 (getD r1.attributes "trust_in_government" 80 - 2))
          { r1 with attributes := a1 }
        else r1
      else r)
    r

/-- The interactions grouped under one participant id by
_update_agent_states, in generation order. -/
def interactionsFor (agent_id : String) (interactions : List Interaction) :
    List Interaction :=
  interactions.filter (fun i => i.participants.contains agent_id)

/-- _update_agent_states: every agent folds exactly the interactions it
participates in; agents that appear in none are untouched (a fold over the
empty list). -/
def updateAgentStates (government : Government) (enterprises : List Enterprise)
    (residents : List Resident) (interactions : List Interaction) :
    Government × List Enterprise × List Resident :=
  (updateGovernmentState government (interactionsFor "government" interactions),
   enterprises.map (fun e => updateEnterpriseState e (interactionsFor e.agent_id interactions)),
   residents.map (fun r => updateResidentState r (interactionsFor r.agent_id interactions)))

/-- random.sample abstracted: the engine only ever uses the size of the
sample and that its members are residents, so the sample is modelled as the
first n elements of the population (an n-element sublist whenever
n is at most the population size). -/
def sample (l : List Resident) (n : ℕ) : List Resident := l.take n

/-- _create_service_interaction: success probability is the rule probability
times an area-dependent infrastructure quality; one draw decides the
outcome and a second decides the service kind. -/
def createServiceInteraction (resident : Resident) (rule : Rule) (rand : ℕ → ℚ)
    (k : ℕ) : Interaction × ℕ :=
  let probability := rule.probability.getD (4/5)
  let infrastructure_quality : ℚ :=
    if resident.area = "core_area" then 9/10
    else if resident.area = "urban_rural_fringe" then 7/10
    else if resident.area = "rural" then 1/2
    else 7/10
  let success_prob := probability * infrastructure_quality
  let outcome := if rand k < success_prob then "success" else "failed"
  ({ itype := some "service_provision"
     participants := ["government", resident.agent_id]
     outcome := some outcome
     effect := some (rule.effect.getD "")
     area := some resident.area
     service_kind := some (if rand (k + 1) > 3/10 then "digital" else "physical") },
   k + 2)

/-- The service-provision loop body applied to every sampled resident in
order, threading the draw index. -/
def createServiceAll (selected : List Resident) (rule : Rule) (rand : ℕ → ℚ)
    (k : ℕ) : List Interaction × ℕ :=
  match selected with
  | [] => ([], k)
  | r :: rest =>
    let (i, k1) := createServiceInteraction r rule rand k
    let (is, k2) := createServiceAll rest rule rand k1
    (i :: is, k2)

/-- _create_resident_gov_interaction: only provide_feedback produces an
interaction, with success probability scaled by government transparency;
any other action yields none. -/
def createResidentGovInteraction (resident : Resident) (government : Government)
    (res_decision : Decision) (rules : List (String × Rule)) (rand : ℕ → ℚ)
    (k : ℕ) : Option Interaction × ℕ :=
  let action := res_decision.action.getD "provide_feedback"
  if action = "provide_feedback" then
    let rule := (getRule rules "demand_response").getD {}
    let probability := rule.probability.getD (7/10)
    let gov_transparency := getD government.attributes "information_transparency" 70 / 100
    let success_prob := probability * gov_transparency
    let outcome := if rand k < success_prob then "success" else "ignored"
    (some { itype := some "demand_response"
            participants := [resident.agent_id, "government"]
            outcome := some outcome
            effect := some (rule.effect.getD "")
            area := some resident.area }, k + 1)
  else (none, k)

/-- The resident-feedback loop of _process_government_resident_interactions
over the zipped residents and decisions. -/
def processFeedback (pairs : List (Resident × Decision)) (government : Government)
    (rules : List (String × Rule)) (rand : ℕ → ℚ) (k : ℕ) :
    List Interaction × ℕ :=
  match pairs with
  | [] => ([], k)
  | (r, d) :: rest =>
    if d.target = some "government" ∧
        (d.action = some "provide_feedback" ∨ d.action = some "request_service") then
      let (oi, k1) := createResidentGovInteraction r government d rules rand k
      let (is, k2) := processFeedback rest government rules rand k1
      (match oi with
       | some i => i :: is
       | none => is, k2)
    else processFeedback rest government rules rand k

/-- _process_government_resident_interactions.  When the government decision
is service_provision the source indexes the rule table directly with
rules[quote service_provision quote]; a missing entry raises KeyError as
soon as the first sampled resident is processed, modelled by none. -/
def processGovernmentResidentInteractions (rules : List (String × Rule))
    (government : Government) (residents : List Resident)
    (gov_decision : Decision) (res_decisions : List Decision)
    (rand : ℕ → ℚ) (k : ℕ) : Option (List Interaction × ℕ) :=
  let svc? : Option (List Interaction × ℕ) :=
    if gov_decision.action = some "service_provision" then
      let num_interactions := min 20 residents.length
      let selected := sample residents num_interactions
      match getRule rules "service_provision" with
      | some rule => some (createServiceAll selected rule rand k)
      | none => if selected.isEmpty then some ([], k) else none
    else some ([], k)
  match svc? with
  | none => none
  | some (svc, k1) =>
    let (fb, k2) := processFeedback (residents.zip res_decisions) government rules rand k1
    some (svc ++ fb, k2)

end InteractionEngine

/-- A policy configuration.  The string-encoded signed deltas of the source
(parsed by _parse_change_value) are carried already parsed as rationals.
For environment-targeted policies the nested attribute_change table, keyed
by digital_infrastructure and physical_infrastructure, is carried as the
two infra fields. -/
structure Policy where
  target : String := ""
  attribute_change : List (String × ℚ) := []
  behavior_change : List (String × ℚ) := []
  rule_change : List (String × List (String × ℚ)) := []
  infra_digital_change : List (String × ℚ) := []
  infra_physical_change : List (String × ℚ) := []
deriving Repr, DecidableEq

namespace Environment

/-- One infrastructure table of apply_policy_intervention: each named area
already present in the map gets an additive, min-100-capped adjustment
(there is no lower clamp in this method). -/
def applyInfraChanges (m : List (String × ℚ)) (changes : List (String × ℚ)) :
    List (String × ℚ) :=
  changes.foldl
    (fun m kc =>
      if (m.find? (fun p => p.1 == kc.1)).isSome then
        setK m kc.1 (min 100 (getD m kc.1 0 + kc.2))
      else m)
    m

/-- Environment.apply_policy_intervention: only environment-targeted
policies act, adjusting the digital and then the physical map. -/
def applyPolicyIntervention (e : Environment) (cfg : Policy) : Environment :=
  if cfg.target = "environment" then
    let dig := applyInfraChanges e.digital_infrastructure cfg.infra_digital_change
    let phy := applyInfraChanges e.physical_infrastructure cfg.infra_physical_change
    { e with digital_infrastructure := dig, physical_infrastructure := phy }
  else e

end Environment

namespace PolicyEngine

/-- The attribute_change loop shared by the agent-targeted appliers: each
named attribute already present in the map gets an additive adjustment
clamped to [0, 100]; absent attributes are skipped. -/
def applyAttrChanges (changes : List (String × ℚ)) (attrs : List (String × ℚ)) :
    List (String × ℚ) :=
  changes.foldl
    (fun a kc =>
      if (a.find? (fun p => p.1 == kc.1)).isSome then
        setK a kc.1 (min 100 (max 0 (getD a kc.1 0 + kc.2)))
      else a)
    attrs

/-- _apply_resident_policy: digital_literacy_training restricts the target
set to residents whose information_literacy (default 60) is below 70; every
target gets the clamped attribute deltas and the behavior modifiers. -/
def applyResidentPolicy (policy_name : String) (cfg : Policy)
    (residents : List Resident) : List Resident :=
  residents.map fun r =>
    let is_target : Bool :=
      if policy_name = "digital_literacy_training" then
        decide (getD r.attributes "information_literacy" 60 < 70)
      else true
    if is_target then
      let attrs := applyAttrChanges cfg.attribute_change r.attributes
      let mods := cfg.behavior_change.foldl (fun m kc => setK m kc.1 kc.2)
        r.behavior_modifiers
      { r with attributes := attrs, behavior_modifiers := mods }
    else r

/-- _apply_government_policy: clamped additive deltas on attributes already
present in the government attribute map. -/
def applyGovernmentPolicy (cfg : Policy) (g : Government) : Government :=
  { g with attributes := applyAttrChanges cfg.attribute_change g.attributes }

/-- _apply_enterprise_policy for one enterprise. -/
def applyEnterprisePolicy (cfg : Policy) (e : Enterprise) : Enterprise :=
  { e with attributes := applyAttrChanges cfg.attribute_change e.attributes }

/-- Installation of one rule modifier table on the government, mirroring the
nested dict writes of _apply_government_enterprise_policy. -/
def setModifiers (mods : List (String × List (String × ℚ)))
    (rule_name : String) (changes : List (String × ℚ)) :
    List (String × List (String × ℚ)) :=
  let present := (mods.find? (fun p => p.1 == rule_name)).isSome
  let mods1 := if present then mods else mods ++ [(rule_name, [])]
  mods1.map fun p =>
    if p.1 == rule_name then
      (p.1, changes.foldl (fun m kc => setK m kc.1 kc.2) p.2)
    else p

/-- The by-name special cases of _apply_government_enterprise_policy on one
enterprise. -/
def applyGovEntSpecial (policy_name : String) (e : Enterprise) : Enterprise :=
  if policy_name = "data_open_sharing" then
    if e.data_collection_strategy = "compliant" then
      { e with attributes := setK e.attributes "data_sharing_willingness" (4/5) }
    else e
  else if policy_name = "algorithm_regulation" then
    let c := getD e.attributes "data_usage_compliance" 90
    { e with attributes := setK e.attributes "data_usage_compliance" (min 100 (c + 5)) }
  else e

/-- _apply_government_enterprise_policy: install the rule modifiers on the
government, then the per-policy special cases on every enterprise. -/
def applyGovernmentEnterprisePolicy (policy_name : String) (cfg : Policy)
    (g : Government) (enterprises : List Enterprise) :
    Government × List Enterprise :=
  let mods := cfg.rule_change.foldl (fun m rc => setModifiers m rc.1 rc.2)
    g.policy_modifiers
  ({ g with policy_modifiers := mods },
   enterprises.map (applyGovEntSpecial policy_name))

end PolicyEngine

/-- The mutable state PolicyEngine.apply acts on: the agent roster, the
environment, and the tracking lists of the engine itself. -/
structure World where
  government : Government := {}
  enterprises : List Enterprise := []
  residents : List Resident := []
  env : Environment := envInit [] []
  applied_policies : List String := []
  policy_history : List (String × String) := []
deriving Repr, DecidableEq

namespace PolicyEngine

/-- _apply_single_policy: dispatch on the declared target (unknown targets
change nothing), then record the application in policy_history. -/
def applySinglePolicy (policy_name : String) (cfg : Policy) (w : World) : World :=
  let w1 :=
    if cfg.target = "resident" then
      { w with residents := applyResidentPolicy policy_name cfg w.residents }
    else if cfg.target = "government_enterprise" then
      let (g, es) :=
        applyGovernmentEnterprisePolicy policy_name cfg w.government w.enterprises
      { w with government := g, enterprises := es }
    else if cfg.target = "environment" then
      { w with env := Environment.applyPolicyIntervention w.env cfg }
    else if cfg.target = "government" then
      { w with government := applyGovernmentPolicy cfg w.government }
    else if cfg.target = "enterprise" then
      { w with enterprises := w.enterprises.map (applyEnterprisePolicy cfg) }
    else w
  { w1 with policy_history := w1.policy_history ++ [(policy_name, cfg.target)] }

/-- One iteration of the loop in PolicyEngine.apply: a known policy is
applied and tracked once in applied_policies; an unknown name only logs a
warning and changes nothing. -/
def applyOne (policies : List (String × Policy)) (w : World) (policy_name : String) :
    World :=
  match (policies.find? (fun p => p.1 == policy_name)).map (fun p => p.2) with
  | some cfg =>
    let w1 := applySinglePolicy policy_name cfg w
    if policy_name ∈ w1.applied_policies then w1
    else { w1 with applied_policies := w1.applied_policies ++ [policy_name] }
  | none => w

/-- PolicyEngine.apply over the requested list of policy names. -/
def apply (policies : List (String × Policy)) (w : World) (names : List String) :
    World :=
  names.foldl (applyOne policies) w

end PolicyEngine

namespace Metrics

/-- np.mean over a list of rationals; every call site below guards against
the empty list exactly where the source does. -/
def mean (l : List ℚ) : ℚ := l.sum / l.length

/-- calculate_resource_usage: fraction of records whose status is active,
capped at 1. -/
def calculate_resource_usage (records : List Interaction) : ℚ :=
  if records.isEmpty then 0
  else
    let active : ℚ :=
      (records.filter (fun r => r.job_status == some "active")).length
    min (active / (records.length : ℚ)) 1

/-- calculate_policy_implementation_cost: mean cost over
policy_implementation records, 0 when there are none. -/
def calculate_policy_implementation_cost (records : List Interaction) : ℚ :=
  if records.isEmpty then 0
  else
    let pol := records.filter (fun r => r.itype == some "policy_implementation")
    if pol.isEmpty then 0
    else mean (pol.map (fun r => r.cost.getD 0))

/-- The four fields calculate_efficiency returns. -/
structure EfficiencyMetrics where
  avg_response_time : ℚ
  resolution_rate : ℚ
  resource_utilization : ℚ
  policy_cost : ℚ
deriving Repr, DecidableEq

/-- calculate_efficiency: the empty record list returns all zeros; otherwise
the service_request records drive response time and resolution rate, with
the one-element default lists [1.0] and [0.5] when none are tagged. -/
def calculate_efficiency (records : List Interaction) : EfficiencyMetrics :=
  if records.isEmpty then
    { avg_response_time := 0, resolution_rate := 0
      resource_utilization := 0, policy_cost := 0 }
  else
    let service_requests := records.filter (fun r => r.itype == some "service_request")
    let response_times :=
      if service_requests.isEmpty then [1]
      else service_requests.map (fun r => r.response_time.getD 1)
    let resolution_rates :=
      if service_requests.isEmpty then [1/2]
      else service_requests.map (fun r => if r.resolved.getD false then (1 : ℚ) else 0)
    { avg_response_time := mean response_times
      resolution_rate := mean resolution_rates
      resource_utilization := calculate_resource_usage records
      policy_cost := calculate_policy_implementation_cost records }

/-- The per-interaction cooperation score of calculate_cooperation_index:
the outcome table followed by the capped bonus for cooperative types. -/
def cooperationScore (i : Interaction) : ℚ :=
  let outcome := i.outcome.getD "neutral"
  let score : ℚ :=
    if outcome = "success" ∨ outcome = "mutual_benefit" ∨ outcome = "win_win" then 1
    else if outcome = "partial_success" ∨ outcome = "compromise" then 7/10
    else if outcome = "neutral" ∨ outcome = "no_change" then 1/2
    else if outcome = "conflict" ∨ outcome = "failed" then 1/10
    else 1/2
  let t := i.itype.getD ""
  if t = "data_sharing" ∨ t = "joint_project" ∨ t = "collaboration" ∨
      t = "partnership" ∨ t = "mutual_support" then
    min 1 (score + 1/5)
  else score

/-- calculate_cooperation_index over the round records, each round record
contributing its interaction list: the mean over rounds of the per-round
mean score, scoring an interaction-free round as 0.5. -/
def calculate_cooperation_index (simulation_records : List (List Interaction)) : ℚ :=
  if simulation_records.isEmpty then 0
  else
    let round_scores := simulation_records.map fun interactions =>
      if interactions.isEmpty then 1/2
      else mean (interactions.map cooperationScore)
    mean round_scores

/-- Modelled from the spec for comparison with the source: the cooperation
index as the plain mean of the per-interaction cooperation score over every
interaction of the whole history, with no per-round grouping. -/
def cooperationIndexInteractionMean (simulation_records : List (List Interaction)) :
    ℚ :=
  mean ((simulation_records.flatten).map cooperationScore)

/-- The all-equal test of calculate_gini, written over the sorted list. -/
def allEqualHead (l : List ℚ) : Bool :=
  match l with
  | [] => true
  | h :: t => t.all (fun x => decide (x = h))

/-- Running cumulative sums, mirroring np.cumsum. -/
def cumsumFrom (acc : ℚ) : List ℚ → List ℚ
  | [] => []
  | x :: t => (acc + x) :: cumsumFrom (acc + x) t

/-- np.cumsum of a list. -/
def cumsum (l : List ℚ) : List ℚ := cumsumFrom 0 l

/-- calculate_gini: inputs shorter than two values give 0; negative values
are floored at 0 and the list sorted; an all-equal list gives 0; a zero
total gives 0; otherwise the cumulative-sum formula clamped to [0, 1]. -/
def calculate_gini (values : List ℚ) : ℚ :=
  if values.length < 2 then 0
  else
    let vs := List.insertionSort (fun a b => a ≤ b) (values.map (fun v => max 0 v))
    let n : ℚ := vs.length
    if allEqualHead vs then 0
    else
      let cs := cumsum vs
      let total := cs.getLast?.getD 0
      if total = 0 then 0
      else max 0 (min 1 ((n + 1 - 2 * cs.sum / total) / n))

end Metrics

/-- One driver-visible mutation of agent state: either folding the
interaction list of one round into the roster (InteractionEngine._update_agent_states)
or applying a list of named policies (PolicyEngine.apply). -/
inductive WorldOp where
  | fold (interactions : List Interaction)
  | policies (names : List String)
deriving Repr

/-- One step of the driver: state folding or policy application. -/
def worldStep (policies_cfg : List (String × Policy)) (w : World) (op : WorldOp) :
    World :=
  match op with
  | .fold interactions =>
    let (g, es, rs) := InteractionEngine.updateAgentStates w.government
      w.enterprises w.residents interactions
    { w with government := g, enterprises := es, residents := rs }
  | .policies names => PolicyEngine.apply policies_cfg w names

/-- An arbitrary interleaving of state-folding rounds and policy
applications. -/
def worldRun (policies_cfg : List (String × Policy)) (w : World)
    (ops : List WorldOp) : World :=
  ops.foldl (worldStep policies_cfg) w

/-- All values of a string-keyed map lie in [lo, hi]. -/
def BoundedMap (m : List (String × ℚ)) (lo hi : ℚ) : Prop :=
  ∀ p ∈ m, lo ≤ p.2 ∧ p.2 ≤ hi

instance (m : List (String × ℚ)) (lo hi : ℚ) : Decidable (BoundedMap m lo hi) :=
  inferInstanceAs (Decidable (∀ p ∈ m, _ ∧ _))

/-- The declared-bounds invariant of a government agent: attributes in
[0, 100] and resource_utilization (default 0.7) in [0, 1]. -/
def GovInv (g : Government) : Prop :=
  BoundedMap g.attributes 0 100 ∧
    0 ≤ getD g.state "resource_utilization" (7/10) ∧
    getD g.state "resource_utilization" (7/10) ≤ 1

/-- The declared-bounds invariant of an enterprise agent: attributes in
[0, 100], innovation_level (default 50) in [0, 100], market_share
(default 0.1) in [0, 1]. -/
def EntInv (e : Enterprise) : Prop :=
  BoundedMap e.attributes 0 100 ∧
    0 ≤ getD e.state "innovation_level" 50 ∧
    getD e.state "innovation_level" 50 ≤ 100 ∧
    0 ≤ getD e.state "market_share" (1/10) ∧
    getD e.state "market_share" (1/10) ≤ 1

/-- The declared-bounds invariant of a resident agent: attributes — among
them trust_in_government — in [0, 100] and satisfaction (default 3) in
[1, 5]. -/
def ResInv (r : Resident) : Prop :=
  BoundedMap r.attributes 0 100 ∧
    1 ≤ getD r.state "satisfaction" 3 ∧
    getD r.state "satisfaction" 3 ≤ 5

/-- The declared-bounds invariant of the whole roster. -/
def WorldInv (w : World) : Prop :=
  GovInv w.government ∧ (∀ e ∈ w.enterprises, EntInv e) ∧
    (∀ r ∈ w.residents, ResInv r)

instance (g : Government) : Decidable (GovInv g) :=
  inferInstanceAs (Decidable (_ ∧ _ ∧ _))

instance (e : Enterprise) : Decidable (EntInv e) :=
  inferInstanceAs (Decidable (_ ∧ _ ∧ _ ∧ _ ∧ _))

instance (r : Resident) : Decidable (ResInv r) :=
  inferInstanceAs (Decidable (_ ∧ _ ∧ _))

instance (w : World) : Decidable (WorldInv w) :=
  inferInstanceAs (Decidable (_ ∧ _ ∧ _))

/-! Association-list lemmas shared by the proofs below. -/

theorem setK_cons_ne (a : String) (b : ℚ) (t : List (String × ℚ)) (k : String)
    (v : ℚ) (h : (a == k) = false) :
    setK ((a, b) :: t) k v = (a, b) :: setK t k v := by
  have hne : ¬ a = k := by simpa using h
  have hpred : ¬ ((fun p : String × ℚ => p.1 == k) (a, b) = true) := by simp [hne]
  rcases hfind : t.find? (fun p => p.1 == k) with _ | q
  · simp [setK, List.find?_cons_of_neg _ hpred, hfind, hne]
  · simp [setK, List.find?_cons_of_neg _ hpred, hfind, hne]

theorem find?_setK_self (m : List (String × ℚ)) (k : String) (v : ℚ) :
    (setK m k v).find? (fun p => p.1 == k) = some (k, v) := by
  induction m with
  | nil => simp [setK]
  | cons p t ih =>
    obtain ⟨a, b⟩ := p
    by_cases hp : (a == k) = true
    · have hak : a = k := by simpa using hp
      rw [hak]
      have hs : (((k, b) :: t).find? (fun p => p.1 == k)).isSome := by simp
      simp [setK, hs]
    · rw [setK_cons_ne a b t k v (by simpa using hp)]
      rw [List.find?_cons_of_neg _ (by simpa using hp)]
      exact ih

theorem find?_setK_map_ne (l : List (String × ℚ)) (k k2 : String) (v : ℚ)
    (h : (k == k2) = false) :
    (l.map (fun p => if p.1 == k then (k, v) else p)).find?
        (fun p => p.1 == k2) = l.find? (fun p => p.1 == k2) := by
  have hne : ¬ k = k2 := by simpa using h
  induction l with
  | nil => simp
  | cons p t ih =>
    obtain ⟨a, b⟩ := p
    rw [List.map_cons]
    by_cases hp : (a == k) = true
    · have hak : a = k := by simpa using hp
      rw [hak]
      rw [if_pos (show (((k, b) : String × ℚ).1 == k) = true by simp)]
      rw [List.find?_cons_of_neg _ (by simp [hne])]
      rw [List.find?_cons_of_neg _ (by simp [hne])]
      exact ih
    · have hp2 : ¬ a = k := by simpa using hp
      rw [if_neg (show ¬ ((((a, b) : String × ℚ).1 == k) = true) by simpa using hp)]
      by_cases ha2 : (a == k2) = true
      · simp only [List.find?_cons, ha2]
      · have ha2f : (a == k2) = false := by simpa using ha2
        simp only [List.find?_cons, ha2f]
        exact ih

theorem find?_setK_ne (m : List (String × ℚ)) (k k2 : String) (v : ℚ)
    (h : (k == k2) = false) :
    (setK m k v).find? (fun p => p.1 == k2) = m.find? (fun p => p.1 == k2) := by
  unfold setK
  rcases hfind : m.find? (fun p => p.1 == k) with _ | q
  · simp only [hfind, Option.isSome_none, Bool.false_eq_true, if_false]
    rw [List.find?_append]
    have h2 : ([((k, v))].find? (fun p => p.1 == k2)) = none := by simp [h]
    rw [h2]
    simp
  · simp only [hfind, Option.isSome_some, if_true]
    exact find?_setK_map_ne m k k2 v h

theorem getD_setK_self (m : List (String × ℚ)) (k : String) (v d : ℚ) :
    getD (setK m k v) k d = v := by
  unfold getD
  rw [find?_setK_self]

theorem getD_setK_ne (m : List (String × ℚ)) (k k2 : String) (v d : ℚ)
    (h : (k == k2) = false) : getD (setK m k v) k2 d = getD m k2 d := by
  unfold getD
  rw [find?_setK_ne m k k2 v h]

theorem mem_setK (m : List (String × ℚ)) (k : String) (v : ℚ) (p : String × ℚ)
    (hp : p ∈ setK m k v) : p ∈ m ∨ p = (k, v) := by
  unfold setK at hp
  rcases hfind : m.find? (fun q => q.1 == k) with _ | q
  · rw [hfind] at hp
    simpa using hp
  · rw [hfind] at hp
    simp only [Option.isSome_some, if_true] at hp
    rcases List.mem_map.mp hp with ⟨q2, hq2, hfq⟩
    by_cases hq : (q2.1 == k) = true
    · right
      rw [if_pos hq] at hfq
      exact hfq.symm
    · left
      rw [if_neg (by simpa using hq)] at hfq
      rwa [← hfq]

theorem boundedMap_setK {m : List (String × ℚ)} {lo hi : ℚ}
    (hm : BoundedMap m lo hi) (k : String) {v : ℚ} (h1 : lo ≤ v) (h2 : v ≤ hi) :
    BoundedMap (setK m k v) lo hi := by
  intro p hp
  rcases mem_setK m k v p hp with h | h
  · exact hm p h
  · rw [h]
    exact ⟨h1, h2⟩

theorem boundedMap_getD {m : List (String × ℚ)} {lo hi : ℚ}
    (hm : BoundedMap m lo hi) (k : String) {d : ℚ} (h1 : lo ≤ d) (h2 : d ≤ hi) :
    lo ≤ getD m k d ∧ getD m k d ≤ hi := by
  unfold getD
  rcases hfind : m.find? (fun p => p.1 == k) with _ | q
  · rw [hfind]
    exact ⟨h1, h2⟩
  · rw [hfind]
    exact hm q (List.mem_of_find?_eq_some hfind)

/-! ## Environment claims -/

theorem driftDigital_consumed (l : List (String × ℚ)) (rand : ℕ → ℚ) (k : ℕ) :
    (Environment.driftDigital l rand k).2 = k + l.length := by
  induction l generalizing k with
  | nil => simp [Environment.driftDigital]
  | cons p t ih =>
    obtain ⟨a, v⟩ := p
    simp [Environment.driftDigital, ih (k + 1)]
    omega

theorem driftDigital_getElem (l : List (String × ℚ)) (rand : ℕ → ℚ) (k n : ℕ) :
    (Environment.driftDigital l rand k).1[n]? =
      (l[n]?).map (fun p => (p.1, max 0 (min 100 (p.2 + rand (k + n))))) := by
  induction l generalizing k n with
  | nil => simp [Environment.driftDigital]
  | cons p t ih =>
    obtain ⟨a, v⟩ := p
    cases n with
    | zero => simp [Environment.driftDigital]
    | succ m =>
      have h1 := ih (k + 1) m
      rw [show k + 1 + m = k + (m + 1) from by omega] at h1
      simpa [Environment.driftDigital] using h1

/-- C1 (counterexample to the claim as stated): an environment already in
emergency, with availability 1 and moderate load, whose first draw is
0.01 < 0.02: one Environment.update leaves the flag set but multiplies
service_availability by 0.7 once more, which the claim rules out during an
ongoing emergency. -/
theorem C1_emergency_reentry_counterexample :
    ({ envInit [("core_area", 50)] [("core_area", 50)] with
        emergency_status := true } : Environment).emergency_status = true ∧
    ({ envInit [("core_area", 50)] [("core_area", 50)] with
        emergency_status := true } : Environment).service_availability = 1 ∧
    (Environment.update
      { envInit [("core_area", 50)] [("core_area", 50)] with
        emergency_status := true } [] (fun _ => 1/100) 0).1.service_availability
      = 7/10 ∧
    (Environment.update
      { envInit [("core_area", 50)] [("core_area", 50)] with
        emergency_status := true } [] (fun _ => 1/100) 0).1.emergency_status
      = true ∧
    (7/10 : ℚ) ≠ 1 := by
  refine ⟨rfl, rfl, ?_, ?_, by norm_num⟩ <;>
    norm_num [Environment.update, Environment.updateSystemLoad,
      Environment.updateServiceAvailability, Environment.checkEmergencyEvents,
      Environment.updateInfrastructureUtilization,
      Environment.updateServiceQuality, Environment.qualityStep,
      Environment.applyRandomChanges, Environment.driftDigital, envInit]

/-- C1 (amended): in every Environment.update the emergency entry branch
fires exactly when the first draw is below 0.02, regardless of the current
flag — so an ongoing emergency can see a fresh entry event, setting the
flag and multiplying the delta-adjusted availability by 0.7 once more.
Only when the entry draw fails is the exit considered: the flag stays set
if and only if it was set and the second draw is not below 0.3, with
availability left at its delta-adjusted value. -/
theorem C1_emergency_transition_amended (e : Environment)
    (interactions : List Interaction) (rand : ℕ → ℚ) (k : ℕ) :
    (rand k < 1/50 →
      (Environment.update e interactions rand k).1.emergency_status = true ∧
      (Environment.update e interactions rand k).1.service_availability =
        Environment.updateServiceAvailability
          (Environment.updateSystemLoad e.system_load interactions)
          e.service_availability interactions * (7/10)) ∧
    (¬ rand k < 1/50 →
      (Environment.update e interactions rand k).1.service_availability =
        Environment.updateServiceAvailability
          (Environment.updateSystemLoad e.system_load interactions)
          e.service_availability interactions ∧
      (Environment.update e interactions rand k).1.emergency_status =
        (e.emergency_status && !(decide (rand (k + 1) < 3/10)))) := by
  constructor
  · intro h
    have hg : rand k < 50⁻¹ := by simpa using h
    simp [Environment.update, Environment.checkEmergencyEvents, hg]
  · intro h
    have hg : ¬ rand k < 50⁻¹ := by simpa using h
    cases hem : e.emergency_status
    · by_cases h2 : rand (k + 1) < 3/10 <;>
        simp [Environment.update, Environment.checkEmergencyEvents, hg, hem, h2]
    · by_cases h2 : rand (k + 1) < 3/10 <;>
        simp [Environment.update, Environment.checkEmergencyEvents, hg, hem, h2]

/-- C1 witness: the amended theorem applied to a concrete in-emergency
environment whose first draw is 0.01. -/
theorem C1_emergency_transition_witness :
    ((1 : ℚ)/100 < 1/50) ∧
    ((Environment.update
        { envInit [("core_area", 50)] [("core_area", 50)] with
          emergency_status := true } [] (fun _ => 1/100) 0).1.emergency_status
        = true ∧
      (Environment.update
        { envInit [("core_area", 50)] [("core_area", 50)] with
          emergency_status := true } [] (fun _ => 1/100) 0).1.service_availability
        = Environment.updateServiceAvailability
            (Environment.updateSystemLoad
              ({ envInit [("core_area", 50)] [("core_area", 50)] with
                emergency_status := true } : Environment).system_load [])
            ({ envInit [("core_area", 50)] [("core_area", 50)] with
              emergency_status := true } : Environment).service_availability []
          * (7/10)) :=
  ⟨by norm_num,
   (C1_emergency_transition_amended
      { envInit [("core_area", 50)] [("core_area", 50)] with
        emergency_status := true } [] (fun _ => 1/100) 0).1 (by norm_num)⟩

/-- C8 (counterexample to the claim as stated): with every draw equal to 1,
the claimed drift would move the single physical infrastructure value from
50 to 51, but Environment.update returns the physical map unchanged — only
the digital map drifts. -/
theorem C8_physical_drift_counterexample :
    (Environment.update (envInit [("core_area", 50)] [("core_area", 50)]) []
        (fun _ => 1) 0).1.physical_infrastructure = [("core_area", (50 : ℚ))] ∧
    max 0 (min 100 ((50 : ℚ) + 1)) = 51 ∧ ((51 : ℚ) ≠ 50) := by
  refine ⟨?_, by norm_num, by norm_num⟩
  norm_num [Environment.update, Environment.updateSystemLoad,
    Environment.updateServiceAvailability, Environment.checkEmergencyEvents,
    Environment.updateInfrastructureUtilization,
    Environment.updateServiceQuality, Environment.qualityStep,
    Environment.applyRandomChanges, Environment.driftDigital, envInit]

/-- C8 (amended): in every Environment.update the physical infrastructure
map is returned unchanged; every digital entry receives its own draw (the
stream picks up right after the emergency check), is clamped to [0, 100],
and is further multiplied by 0.98 exactly when the post-transition
emergency flag is set; the call consumes one draw per digital entry. -/
theorem C8_random_changes_amended (e : Environment)
    (interactions : List Interaction) (rand : ℕ → ℚ) (k : ℕ) :
    (Environment.update e interactions rand k).1.physical_infrastructure =
      e.physical_infrastructure ∧
    (∀ n : ℕ,
      (Environment.update e interactions rand k).1.digital_infrastructure[n]? =
      (e.digital_infrastructure[n]?).map (fun p =>
        (p.1,
         if (Environment.checkEmergencyEvents e.emergency_status
              (Environment.updateServiceAvailability
                (Environment.updateSystemLoad e.system_load interactions)
                e.service_availability interactions) rand k).1 then
           max 0 (min 100 (p.2 + rand
             ((Environment.checkEmergencyEvents e.emergency_status
                (Environment.updateServiceAvailability
                  (Environment.updateSystemLoad e.system_load interactions)
                  e.service_availability interactions) rand k).2.2 + n)))
             * (49/50)
         else
           max 0 (min 100 (p.2 + rand
             ((Environment.checkEmergencyEvents e.emergency_status
                (Environment.updateServiceAvailability
                  (Environment.updateSystemLoad e.system_load interactions)
                  e.service_availability interactions) rand k).2.2 + n)))))) ∧
    (Environment.update e interactions rand k).2 =
      (Environment.checkEmergencyEvents e.emergency_status
        (Environment.updateServiceAvailability
          (Environment.updateSystemLoad e.system_load interactions)
          e.service_availability interactions) rand k).2.2 +
        e.digital_infrastructure.length := by
  rcases hc : Environment.checkEmergencyEvents e.emergency_status
      (Environment.updateServiceAvailability
        (Environment.updateSystemLoad e.system_load interactions)
        e.service_availability interactions) rand k with ⟨em, avail2, k1⟩
  cases em with
  | false =>
    refine ⟨?_, fun n => ?_, ?_⟩ <;>
      simp [Environment.update, Environment.applyRandomChanges, hc,
        driftDigital_getElem, driftDigital_consumed]
  | true =>
    refine ⟨?_, fun n => ?_, ?_⟩
    · simp [Environment.update, Environment.applyRandomChanges, hc,
        driftDigital_getElem, driftDigital_consumed]
    · simp [Environment.update, Environment.applyRandomChanges, hc,
        driftDigital_getElem, driftDigital_consumed, Option.map_map,
        Function.comp]
      rcases e.digital_infrastructure[n]? with _ | p <;> simp
    · simp [Environment.update, Environment.applyRandomChanges, hc,
        driftDigital_getElem, driftDigital_consumed]

/-! ## InteractionEngine and metrics claims -/

/-- C2 (code evaluated at the failing input): with a government_resident
rule table lacking a service_provision entry, a government decision whose
action is service_provision, and one resident present, the engine raises
(modelled as none) instead of skipping the slot. -/
theorem C2_missing_rule_keyerror :
    InteractionEngine.processGovernmentResidentInteractions [] {}
      [{ agent_id := "resident_1" }]
      { action := some "service_provision", target := some "residents" } []
      (fun _ => 1/2) 0 = none := by
  simp [InteractionEngine.processGovernmentResidentInteractions,
    InteractionEngine.sample, getRule]

/-- C6 (counterexample to the claim as stated): on the empty record list
calculate_efficiency takes the early-return branch and yields 0.0 for both
avg_response_time and resolution_rate, not the claimed defaults 1.0 and
0.5. -/
theorem C6_empty_records_counterexample :
    (Metrics.calculate_efficiency []).avg_response_time = 0 ∧
    (Metrics.calculate_efficiency []).resolution_rate = 0 ∧
    ((0 : ℚ) ≠ 1) ∧ ((0 : ℚ) ≠ 1/2) := by
  refine ⟨?_, ?_, by norm_num, by norm_num⟩ <;>
    simp [Metrics.calculate_efficiency]

/-- C6 (amended): for every non-empty record list containing no record of
type service_request, calculate_efficiency returns avg_response_time 1.0
and resolution_rate 0.5; the empty list instead returns 0.0 for both. -/
theorem C6_no_service_request_defaults (records : List Interaction)
    (hne : records ≠ [])
    (hnosr : ∀ r ∈ records, r.itype ≠ some "service_request") :
    (Metrics.calculate_efficiency records).avg_response_time = 1 ∧
    (Metrics.calculate_efficiency records).resolution_rate = 1/2 := by
  have hemp : records.isEmpty = false := by
    simp [List.isEmpty_iff, hne]
  have hfil : records.filter (fun r => r.itype == some "service_request") = [] := by
    rw [List.filter_eq_nil_iff]
    intro r hr
    simpa using hnosr r hr
  simp [Metrics.calculate_efficiency, hemp, hfil, Metrics.mean]

/-- C6 witness: the amended theorem applied to a one-record list with no
service_request tag. -/
theorem C6_no_service_request_defaults_witness :
    (([({ itype := some "regulation" } : Interaction)] : List Interaction) ≠ []) ∧
    (∀ r ∈ ([({ itype := some "regulation" } : Interaction)] : List Interaction),
      r.itype ≠ some "service_request") ∧
    (Metrics.calculate_efficiency [{ itype := some "regulation" }]).avg_response_time
      = 1 ∧
    (Metrics.calculate_efficiency [{ itype := some "regulation" }]).resolution_rate
      = 1/2 := by
  refine ⟨by simp, by simp, ?_, ?_⟩
  · exact (C6_no_service_request_defaults [{ itype := some "regulation" }]
      (by simp) (by simp)).1
  · exact (C6_no_service_request_defaults [{ itype := some "regulation" }]
      (by simp) (by simp)).2

/-- C7 (counterexample to the claim as stated): one history with a single
success in round one and two failures in round two.  The source averages
the per-round means, giving 0.55, while the claimed interaction-weighted
mean over the whole history gives 0.4 — the index does depend on how the
interactions are distributed across rounds. -/
theorem C7_round_weighting_counterexample :
    Metrics.calculate_cooperation_index
      [[{ outcome := some "success" }],
       [{ outcome := some "failed" }, { outcome := some "failed" }]] = 11/20 ∧
    Metrics.cooperationIndexInteractionMean
      [[{ outcome := some "success" }],
       [{ outcome := some "failed" }, { outcome := some "failed" }]] = 2/5 ∧
    ((11/20 : ℚ) ≠ 2/5) := by
  refine ⟨?_, ?_, by norm_num⟩ <;>
    · simp [Metrics.calculate_cooperation_index,
        Metrics.cooperationIndexInteractionMean, Metrics.cooperationScore,
        Metrics.mean]
      norm_num

/-- C7 (amended): calculate_cooperation_index is the mean over rounds of
the per-round mean cooperation score (an empty round scoring 0.5), which
round-weights the index; it coincides with the interaction-weighted mean
of the claim exactly when the history has a single non-empty round. -/
theorem C7_cooperation_index_amended (interactions : List Interaction)
    (h : interactions ≠ []) :
    Metrics.calculate_cooperation_index [interactions] =
      Metrics.cooperationIndexInteractionMean [interactions] := by
  have hemp : interactions.isEmpty = false := by
    simp [List.isEmpty_iff, h]
  simp [Metrics.calculate_cooperation_index,
    Metrics.cooperationIndexInteractionMean, hemp, h, Metrics.mean]

/-- C7 witness: the amended theorem applied to a one-interaction round. -/
theorem C7_cooperation_index_witness :
    (([({ outcome := some "success" } : Interaction)] : List Interaction) ≠ []) ∧
    Metrics.calculate_cooperation_index
        [[({ outcome := some "success" } : Interaction)]] =
      Metrics.cooperationIndexInteractionMean
        [[({ outcome := some "success" } : Interaction)]] :=
  ⟨by simp, C7_cooperation_index_amended [{ outcome := some "success" }] (by simp)⟩

/-- C9: calculate_gini returns exactly 0 on every non-empty list whose
elements are all equal, including single-element lists. -/
theorem C9_gini_equal_values (values : List ℚ) (c : ℚ) (_hne : values ≠ [])
    (hall : ∀ x ∈ values, x = c) : Metrics.calculate_gini values = 0 := by
  by_cases hlen : values.length < 2
  · simp [Metrics.calculate_gini, hlen]
  · have hsorted : ∀ x ∈ List.insertionSort (fun a b => a ≤ b)
        (values.map (fun v => max 0 v)), x = max 0 c := by
      intro x hx
      have hx2 : x ∈ values.map (fun v => max 0 v) :=
        (List.perm_insertionSort _ _).mem_iff.mp hx
      rcases List.mem_map.mp hx2 with ⟨y, hy, rfl⟩
      rw [hall y hy]
    rcases hs : List.insertionSort (fun a b => a ≤ b)
        (values.map (fun v => max 0 v)) with _ | ⟨h0, t⟩
    · exfalso
      have hl := List.length_insertionSort (fun a b => a ≤ b)
        (values.map (fun v => max 0 v))
      rw [hs] at hl
      simp at hl
      rw [← hl] at hlen
      exact hlen (by omega)
    · have hAll : Metrics.allEqualHead (h0 :: t) = true := by
        have h00 : h0 = max 0 c := hsorted h0 (by rw [hs]; exact List.mem_cons_self _ _)
        simp only [Metrics.allEqualHead, List.all_eq_true]
        intro x hx
        have hx0 : x = max 0 c := hsorted x (by rw [hs]; exact List.mem_cons_of_mem _ hx)
        simp [hx0, h00]
      simp [Metrics.calculate_gini, hlen, hs, hAll]

/-- C9 witness: the theorem applied to the constant list [3, 3, 3]. -/
theorem C9_gini_equal_values_witness :
    (([3, 3, 3] : List ℚ) ≠ []) ∧ (∀ x ∈ ([3, 3, 3] : List ℚ), x = 3) ∧
    Metrics.calculate_gini [3, 3, 3] = 0 :=
  ⟨by simp, by simp, C9_gini_equal_values [3, 3, 3] 3 (by simp) (by simp)⟩

/-! ## State folding and policy claims -/

/-- C5 (counterexample to the claim as stated): an enterprise participating
in a procurement_cooperation interaction whose outcome is failed keeps its
state unchanged — _update_enterprise_state only reacts to success, so no
state metric is lowered. -/
theorem C5_enterprise_failed_counterexample :
    InteractionEngine.updateEnterpriseState
      { agent_id := "e1",
        state := [("innovation_level", 50), ("market_share", 1/10)] }
      [{ itype := some "procurement_cooperation", outcome := some "failed",
         participants := ["government", "e1"] }] =
      { agent_id := "e1",
        state := [("innovation_level", 50), ("market_share", 1/10)] } ∧
    ¬ (getD (InteractionEngine.updateEnterpriseState
        { agent_id := "e1",
          state := [("innovation_level", 50), ("market_share", 1/10)] }
        [{ itype := some "procurement_cooperation", outcome := some "failed",
           participants := ["government", "e1"] }]).state
        "innovation_level" 50 < 50) := by
  have h1 : InteractionEngine.updateEnterpriseState
      { agent_id := "e1",
        state := [("innovation_level", 50), ("market_share", 1/10)] }
      [{ itype := some "procurement_cooperation", outcome := some "failed",
         participants := ["government", "e1"] }] =
      { agent_id := "e1",
        state := [("innovation_level", (50 : ℚ)), ("market_share", 1/10)] } := by
    simp [InteractionEngine.updateEnterpriseState]
  refine ⟨h1, ?_⟩
  rw [h1]
  simp [getD]

/-- C5 (amended): state folding moves every existing delta in the spec
direction — success raises government resource_utilization to
min 1 (old + 0.01), resident satisfaction (service_provision) to
min 5 (old + 0.1), resident trust (demand_response) to min 100 (old + 1),
enterprise innovation_level (procurement_cooperation) to min 100 (old + 2)
and enterprise market_share (service_supply) to min 1 (old + 0.01); a
failed or violation outcome lowers government resource_utilization to
max 0 (old − 0.01); a failed or ignored outcome lowers resident
satisfaction to max 1 (old − 0.05) and, for demand_response, resident
trust to max 0 (old − 2) — but an enterprise interaction whose outcome is
not success leaves the enterprise state entirely unchanged: failed and
violation outcomes lower nothing for enterprises. -/
theorem C5_state_folding_amended (g : Government) (e : Enterprise)
    (r : Resident) (i j sp dr ss : Interaction) :
    ((i.outcome = some "failed" ∨ i.outcome = some "violation") →
      getD (InteractionEngine.updateGovernmentState g [i]).state
          "resource_utilization" (7/10) =
        max 0 (getD g.state "resource_utilization" (7/10) - 1/100)) ∧
    (j.outcome = some "success" →
      getD (InteractionEngine.updateGovernmentState g [j]).state
          "resource_utilization" (7/10) =
        min 1 (getD g.state "resource_utilization" (7/10) + 1/100)) ∧
    ((i.outcome = some "failed" ∨ i.outcome = some "ignored") →
      getD (InteractionEngine.updateResidentState r [i]).state
          "satisfaction" 3 =
        max 1 (getD r.state "satisfaction" 3 - 1/20)) ∧
    ((i.outcome = some "failed" ∨ i.outcome = some "ignored") →
      i.itype = some "demand_response" →
      getD (InteractionEngine.updateResidentState r [i]).attributes
          "trust_in_government" 80 =
        max 0 (getD r.attributes "trust_in_government" 80 - 2)) ∧
    (sp.outcome = some "success" → sp.itype = some "service_provision" →
      getD (InteractionEngine.updateResidentState r [sp]).state
          "satisfaction" 3 =
        min 5 (getD r.state "satisfaction" 3 + 1/10)) ∧
    (dr.outcome = some "success" → dr.itype = some "demand_response" →
      getD (InteractionEngine.updateResidentState r [dr]).attributes
          "trust_in_government" 80 =
        min 100 (getD r.attributes "trust_in_government" 80 + 1)) ∧
    (i.outcome ≠ some "success" →
      InteractionEngine.updateEnterpriseState e [i] = e) ∧
    (j.outcome = some "success" → j.itype = some "procurement_cooperation" →
      getD (InteractionEngine.updateEnterpriseState e [j]).state
          "innovation_level" 50 =
        min 100 (getD e.state "innovation_level" 50 + 2)) ∧
    (ss.outcome = some "success" → ss.itype = some "service_supply" →
      getD (InteractionEngine.updateEnterpriseState e [ss]).state
          "market_share" (1/10) =
        min 1 (getD e.state "market_share" (1/10) + 1/100)) := by
  refine ⟨?_, ?_, ?_, ?_, ?_, ?_, ?_, ?_, ?_⟩
  · rintro (h | h) <;>
      simp [InteractionEngine.updateGovernmentState, h, getD_setK_self]
  · intro h
    simp [InteractionEngine.updateGovernmentState, h, getD_setK_self]
  · rintro (h | h) <;>
      by_cases ht : i.itype.getD "" = "demand_response" <;>
        simp [InteractionEngine.updateResidentState, h, ht, getD_setK_self]
  · rintro (h | h) ht <;>
      simp [InteractionEngine.updateResidentState, h, ht, getD_setK_self]
  · intro h1 h2
    simp [InteractionEngine.updateResidentState, h1, h2, getD_setK_self]
  · intro h1 h2
    simp [InteractionEngine.updateResidentState, h1, h2, getD_setK_self]
  · intro h
    rcases ho : i.outcome with _ | sout
    · simp [InteractionEngine.updateEnterpriseState, ho]
    · by_cases hs : sout = "success"
      · exact absurd (by rw [ho, hs]) h
      · simp [InteractionEngine.updateEnterpriseState, ho, hs]
  · intro h1 h2
    simp [InteractionEngine.updateEnterpriseState, h1, h2, getD_setK_self]
  · intro h1 h2
    simp [InteractionEngine.updateEnterpriseState, h1, h2, getD_setK_self]

/-- C5 witness: the amended theorem on concrete agents carrying the default
values explicitly, at a failed demand_response interaction and at
successful procurement_cooperation, service_provision, demand_response and
service_supply interactions. -/
theorem C5_state_folding_witness :
    getD (InteractionEngine.updateGovernmentState
        { state := [("resource_utilization", 7/10)] }
        [{ itype := some "demand_response", outcome := some "failed" }]).state
      "resource_utilization" (7/10) =
      max 0 (getD ([(("resource_utilization", 7/10))] : List (String × ℚ))
        "resource_utilization" (7/10) - 1/100) ∧
    getD (InteractionEngine.updateGovernmentState
        { state := [("resource_utilization", 7/10)] }
        [{ itype := some "procurement_cooperation",
           outcome := some "success" }]).state
      "resource_utilization" (7/10) =
      min 1 (getD ([(("resource_utilization", 7/10))] : List (String × ℚ))
        "resource_utilization" (7/10) + 1/100) ∧
    getD (InteractionEngine.updateResidentState
        { attributes := [("trust_in_government", 80)],
          state := [("satisfaction", 3)] }
        [{ itype := some "demand_response", outcome := some "failed" }]).state
      "satisfaction" 3 =
      max 1 (getD ([(("satisfaction", (3 : ℚ)))] : List (String × ℚ))
        "satisfaction" 3 - 1/20) ∧
    getD (InteractionEngine.updateResidentState
        { attributes := [("trust_in_government", 80)],
          state := [("satisfaction", 3)] }
        [{ itype := some "demand_response",
           outcome := some "failed" }]).attributes
      "trust_in_government" 80 =
      max 0 (getD ([(("trust_in_government", (80 : ℚ)))] : List (String × ℚ))
        "trust_in_government" 80 - 2) ∧
    getD (InteractionEngine.updateResidentState
        { attributes := [("trust_in_government", 80)],
          state := [("satisfaction", 3)] }
        [{ itype := some "service_provision",
           outcome := some "success" }]).state
      "satisfaction" 3 =
      min 5 (getD ([(("satisfaction", (3 : ℚ)))] : List (String × ℚ))
        "satisfaction" 3 + 1/10) ∧
    getD (InteractionEngine.updateResidentState
        { attributes := [("trust_in_government", 80)],
          state := [("satisfaction", 3)] }
        [{ itype := some "demand_response",
           outcome := some "success" }]).attributes
      "trust_in_government" 80 =
      min 100 (getD ([(("trust_in_government", (80 : ℚ)))] : List (String × ℚ))
        "trust_in_government" 80 + 1) ∧
    InteractionEngine.updateEnterpriseState
      { state := [("innovation_level", 50), ("market_share", 1/10)] }
      [{ itype := some "demand_response", outcome := some "failed" }] =
      { state := [("innovation_level", 50), ("market_share", 1/10)] } ∧
    getD (InteractionEngine.updateEnterpriseState
        { state := [("innovation_level", 50), ("market_share", 1/10)] }
        [{ itype := some "procurement_cooperation",
           outcome := some "success" }]).state "innovation_level" 50 =
      min 100 (getD
        ([("innovation_level", (50 : ℚ)), ("market_share", 1/10)] :
          List (String × ℚ)) "innovation_level" 50 + 2) ∧
    getD (InteractionEngine.updateEnterpriseState
        { state := [("innovation_level", 50), ("market_share", 1/10)] }
        [{ itype := some "service_supply",
           outcome := some "success" }]).state "market_share" (1/10) =
      min 1 (getD
        ([("innovation_level", (50 : ℚ)), ("market_share", 1/10)] :
          List (String × ℚ)) "market_share" (1/10) + 1/100) := by
  refine ⟨?_, ?_, ?_, ?_, ?_, ?_, ?_, ?_, ?_⟩
  · exact (C5_state_folding_amended { state := [("resource_utilization", 7/10)] }
      { state := [("innovation_level", 50), ("market_share", 1/10)] }
      { attributes := [("trust_in_government", 80)],
        state := [("satisfaction", 3)] }
      { itype := some "demand_response", outcome := some "failed" }
      { itype := some "procurement_cooperation", outcome := some "success" }
      { itype := some "service_provision", outcome := some "success" }
      { itype := some "demand_response", outcome := some "success" }
      { itype := some "service_supply", outcome := some "success" }).1
      (Or.inl rfl)
  · exact (C5_state_folding_amended { state := [("resource_utilization", 7/10)] }
      { state := [("innovation_level", 50), ("market_share", 1/10)] }
      { attributes := [("trust_in_government", 80)],
        state := [("satisfaction", 3)] }
      { itype := some "demand_response", outcome := some "failed" }
      { itype := some "procurement_cooperation", outcome := some "success" }
      { itype := some "service_provision", outcome := some "success" }
      { itype := some "demand_response", outcome := some "success" }
      { itype := some "service_supply", outcome := some "success" }).2.1 rfl
  · exact (C5_state_folding_amended { state := [("resource_utilization", 7/10)] }
      { state := [("innovation_level", 50), ("market_share", 1/10)] }
      { attributes := [("trust_in_government", 80)],
        state := [("satisfaction", 3)] }
      { itype := some "demand_response", outcome := some "failed" }
      { itype := some "procurement_cooperation", outcome := some "success" }
      { itype := some "service_provision", outcome := some "success" }
      { itype := some "demand_response", outcome := some "success" }
      { itype := some "service_supply", outcome := some "success" }).2.2.1
      (Or.inl rfl)
  · exact (C5_state_folding_amended { state := [("resource_utilization", 7/10)] }
      { state := [("innovation_level", 50), ("market_share", 1/10)] }
      { attributes := [("trust_in_government", 80)],
        state := [("satisfaction", 3)] }
      { itype := some "demand_response", outcome := some "failed" }
      { itype := some "procurement_cooperation", outcome := some "success" }
      { itype := some "service_provision", outcome := some "success" }
      { itype := some "demand_response", outcome := some "success" }
      { itype := some "service_supply", outcome := some "success" }).2.2.2.1
      (Or.inl rfl) rfl
  · exact (C5_state_folding_amended { state := [("resource_utilization", 7/10)] }
      { state := [("innovation_level", 50), ("market_share", 1/10)] }
      { attributes := [("trust_in_government", 80)],
        state := [("satisfaction", 3)] }
      { itype := some "demand_response", outcome := some "failed" }
      { itype := some "procurement_cooperation", outcome := some "success" }
      { itype := some "service_provision", outcome := some "success" }
      { itype := some "demand_response", outcome := some "success" }
      { itype := some "service_supply", outcome := some "success" }).2.2.2.2.1
      rfl rfl
  · exact (C5_state_folding_amended { state := [("resource_utilization", 7/10)] }
      { state := [("innovation_level", 50), ("market_share", 1/10)] }
      { attributes := [("trust_in_government", 80)],
        state := [("satisfaction", 3)] }
      { itype := some "demand_response", outcome := some "failed" }
      { itype := some "procurement_cooperation", outcome := some "success" }
      { itype := some "service_provision", outcome := some "success" }
      { itype := some "demand_response", outcome := some "success" }
      { itype := some "service_supply", outcome := some "success" }).2.2.2.2.2.1
      rfl rfl
  · exact (C5_state_folding_amended { state := [("resource_utilization", 7/10)] }
      { state := [("innovation_level", 50), ("market_share", 1/10)] }
      { attributes := [("trust_in_government", 80)],
        state := [("satisfaction", 3)] }
      { itype := some "demand_response", outcome := some "failed" }
      { itype := some "procurement_cooperation", outcome := some "success" }
      { itype := some "service_provision", outcome := some "success" }
      { itype := some "demand_response", outcome := some "success" }
      { itype := some "service_supply",
        outcome := some "success" }).2.2.2.2.2.2.1
      (by simp)
  · exact (C5_state_folding_amended { state := [("resource_utilization", 7/10)] }
      { state := [("innovation_level", 50), ("market_share", 1/10)] }
      { attributes := [("trust_in_government", 80)],
        state := [("satisfaction", 3)] }
      { itype := some "demand_response", outcome := some "failed" }
      { itype := some "procurement_cooperation", outcome := some "success" }
      { itype := some "service_provision", outcome := some "success" }
      { itype := some "demand_response", outcome := some "success" }
      { itype := some "service_supply",
        outcome := some "success" }).2.2.2.2.2.2.2.1
      rfl rfl
  · exact (C5_state_folding_amended { state := [("resource_utilization", 7/10)] }
      { state := [("innovation_level", 50), ("market_share", 1/10)] }
      { attributes := [("trust_in_government", 80)],
        state := [("satisfaction", 3)] }
      { itype := some "demand_response", outcome := some "failed" }
      { itype := some "procurement_cooperation", outcome := some "success" }
      { itype := some "service_provision", outcome := some "success" }
      { itype := some "demand_response", outcome := some "success" }
      { itype := some "service_supply",
        outcome := some "success" }).2.2.2.2.2.2.2.2
      rfl rfl

/-- C10: a policy name absent from the policies configuration is a no-op
for PolicyEngine.apply — the whole World (agents, environment,
applied_policies, policy_history) is unchanged by that name and processing
continues with the remaining names. -/
theorem C10_unknown_policy_noop (policies : List (String × Policy)) (w : World)
    (policy_name : String) (rest : List String)
    (h : policies.find? (fun p => p.1 == policy_name) = none) :
    PolicyEngine.applyOne policies w policy_name = w ∧
    PolicyEngine.apply policies w (policy_name :: rest) =
      PolicyEngine.apply policies w rest := by
  have h1 : PolicyEngine.applyOne policies w policy_name = w := by
    simp [PolicyEngine.applyOne, h]
  exact ⟨h1, by simp [PolicyEngine.apply, h1]⟩

/-- C10 witness: a one-policy table that does not contain the requested
name. -/
theorem C10_unknown_policy_noop_witness :
    (([("algorithm_regulation", ({ target := "government_enterprise" } : Policy))]
        : List (String × Policy)).find? (fun p => p.1 == "missing_policy")
      = none) ∧
    (PolicyEngine.applyOne
        [("algorithm_regulation", { target := "government_enterprise" })]
        ({} : World) "missing_policy" = ({} : World) ∧
      PolicyEngine.apply
          [("algorithm_regulation", { target := "government_enterprise" })]
          ({} : World) ["missing_policy"] =
        PolicyEngine.apply
          [("algorithm_regulation", { target := "government_enterprise" })]
          ({} : World) []) :=
  ⟨by simp, C10_unknown_policy_noop
    [("algorithm_regulation", { target := "government_enterprise" })] {}
    "missing_policy" [] (by simp)⟩

/-- C3 (counterexample to the claim as stated): one resident with
information_literacy 55 and delta +20.  The first application raises the
attribute to 75; the second application re-evaluates the below-70 filter,
finds 75, and skips the resident, leaving 75 — not the claimed
55 + 2 * 20 = 95, although the 100 clamp never binds. -/
theorem C3_double_application_counterexample :
    (PolicyEngine.apply
      [("digital_literacy_training",
        { target := "resident",
          attribute_change := [("information_literacy", 20)] })]
      (PolicyEngine.apply
        [("digital_literacy_training",
          { target := "resident",
            attribute_change := [("information_literacy", 20)] })]
        { residents := [{ agent_id := "r1",
                          attributes := [("information_literacy", 55)] }] }
        ["digital_literacy_training"])
      ["digital_literacy_training"]).residents =
      [{ agent_id := "r1", attributes := [("information_literacy", 75)] }] ∧
    (55 : ℚ) + 2 * 20 = 95 ∧ ((75 : ℚ) ≠ 95) ∧ ((95 : ℚ) ≤ 100) := by
  refine ⟨?_, by norm_num, by norm_num, by norm_num⟩
  norm_num [PolicyEngine.apply, PolicyEngine.applyOne,
    PolicyEngine.applySinglePolicy, PolicyEngine.applyResidentPolicy,
    PolicyEngine.applyAttrChanges, getD, setK]

/-- C3 (amended): applying digital_literacy_training twice compounds only
while the target filter keeps matching — a target resident with literacy v
below 70 ends at clamp (clamp (v + d) + d) when the first application
leaves the literacy still below 70, and at clamp (v + d) (a single delta)
when the first application pushes the literacy to 70 or above, where
clamp x = min 100 (max 0 x). -/
theorem C3_double_application_amended (v d : ℚ) (_hv : 0 ≤ v) (hlt : v < 70) :
    (PolicyEngine.apply
      [("digital_literacy_training",
        { target := "resident",
          attribute_change := [("information_literacy", d)] })]
      (PolicyEngine.apply
        [("digital_literacy_training",
          { target := "resident",
            attribute_change := [("information_literacy", d)] })]
        { residents := [{ agent_id := "r1",
                          attributes := [("information_literacy", v)] }] }
        ["digital_literacy_training"])
      ["digital_literacy_training"]).residents =
      [{ agent_id := "r1",
         attributes := [("information_literacy",
           if min 100 (max 0 (v + d)) < 70 then
             min 100 (max 0 (min 100 (max 0 (v + d)) + d))
           else min 100 (max 0 (v + d)))] }] := by
  by_cases h2 : min 100 (max 0 (v + d)) < 70 <;>
    simp [PolicyEngine.apply, PolicyEngine.applyOne,
      PolicyEngine.applySinglePolicy, PolicyEngine.applyResidentPolicy,
      PolicyEngine.applyAttrChanges, getD, setK, hlt, h2]

/-- C3 witness: the amended theorem at literacy 55 and delta +20. -/
theorem C3_double_application_witness :
    ((0 : ℚ) ≤ 55) ∧ ((55 : ℚ) < 70) ∧
    (PolicyEngine.apply
      [("digital_literacy_training",
        { target := "resident",
          attribute_change := [("information_literacy", 20)] })]
      (PolicyEngine.apply
        [("digital_literacy_training",
          { target := "resident",
            attribute_change := [("information_literacy", 20)] })]
        { residents := [{ agent_id := "r1",
                          attributes := [("information_literacy", 55)] }] }
        ["digital_literacy_training"])
      ["digital_literacy_training"]).residents =
      [{ agent_id := "r1",
         attributes := [("information_literacy",
           if min 100 (max 0 ((55 : ℚ) + 20)) < 70 then
             min 100 (max 0 (min 100 (max 0 ((55 : ℚ) + 20)) + 20))
           else min 100 (max 0 ((55 : ℚ) + 20)))] }] :=
  ⟨by norm_num, by norm_num,
   C3_double_application_amended 55 20 (by norm_num) (by norm_num)⟩

/-! ## C4: the declared-bounds invariant -/

theorem updateGovernmentState_cons (g : Government) (i : Interaction)
    (t : List Interaction) :
    InteractionEngine.updateGovernmentState g (i :: t) =
      InteractionEngine.updateGovernmentState
        (InteractionEngine.updateGovernmentState g [i]) t := by
  simp [InteractionEngine.updateGovernmentState]

theorem updateEnterpriseState_cons (e : Enterprise) (i : Interaction)
    (t : List Interaction) :
    InteractionEngine.updateEnterpriseState e (i :: t) =
      InteractionEngine.updateEnterpriseState
        (InteractionEngine.updateEnterpriseState e [i]) t := by
  simp [InteractionEngine.updateEnterpriseState]

theorem updateResidentState_cons (r : Resident) (i : Interaction)
    (t : List Interaction) :
    InteractionEngine.updateResidentState r (i :: t) =
      InteractionEngine.updateResidentState
        (InteractionEngine.updateResidentState r [i]) t := by
  simp [InteractionEngine.updateResidentState]

theorem updateGovernmentState_single_inv (g : Government) (i : Interaction)
    (h : GovInv g) : GovInv (InteractionEngine.updateGovernmentState g [i]) := by
  obtain ⟨ha, h0, h1⟩ := h
  simp only [InteractionEngine.updateGovernmentState, List.foldl_cons,
    List.foldl_nil]
  split_ifs with hs hf
  · refine ⟨ha, ?_, ?_⟩ <;> simp only [getD_setK_self]
    · exact le_min (by norm_num) (by linarith)
    · exact min_le_left _ _
  · refine ⟨ha, ?_, ?_⟩ <;> simp only [getD_setK_self]
    · exact le_max_left _ _
    · exact max_le (by norm_num) (by linarith)
  · exact ⟨ha, h0, h1⟩

theorem updateGovernmentState_inv (g : Government) (ints : List Interaction)
    (h : GovInv g) : GovInv (InteractionEngine.updateGovernmentState g ints) := by
  induction ints generalizing g with
  | nil => simpa [InteractionEngine.updateGovernmentState] using h
  | cons i t ih =>
    rw [updateGovernmentState_cons]
    exact ih _ (updateGovernmentState_single_inv g i h)

theorem updateEnterpriseState_single_inv (e : Enterprise) (i : Interaction)
    (h : EntInv e) : EntInv (InteractionEngine.updateEnterpriseState e [i]) := by
  obtain ⟨ha, hi0, hi1, hm0, hm1⟩ := h
  simp only [InteractionEngine.updateEnterpriseState, List.foldl_cons,
    List.foldl_nil]
  split_ifs with hs ht1 ht2
  · refine ⟨ha, ?_, ?_, ?_, ?_⟩
    · simp only [getD_setK_self]
      exact le_min (by norm_num) (by linarith)
    · simp only [getD_setK_self]
      exact min_le_left _ _
    · rw [getD_setK_ne _ _ _ _ _ (by decide)]
      exact hm0
    · rw [getD_setK_ne _ _ _ _ _ (by decide)]
      exact hm1
  · refine ⟨ha, ?_, ?_, ?_, ?_⟩
    · rw [getD_setK_ne _ _ _ _ _ (by decide)]
      exact hi0
    · rw [getD_setK_ne _ _ _ _ _ (by decide)]
      exact hi1
    · simp only [getD_setK_self]
      exact le_min (by norm_num) (by linarith)
    · simp only [getD_setK_self]
      exact min_le_left _ _
  · exact ⟨ha, hi0, hi1, hm0, hm1⟩
  · exact ⟨ha, hi0, hi1, hm0, hm1⟩

theorem updateEnterpriseState_inv (e : Enterprise) (ints : List Interaction)
    (h : EntInv e) : EntInv (InteractionEngine.updateEnterpriseState e ints) := by
  induction ints generalizing e with
  | nil => simpa [InteractionEngine.updateEnterpriseState] using h
  | cons i t ih =>
    rw [updateEnterpriseState_cons]
    exact ih _ (updateEnterpriseState_single_inv e i h)

theorem updateResidentState_single_inv (r : Resident) (i : Interaction)
    (h : ResInv r) : ResInv (InteractionEngine.updateResidentState r [i]) := by
  obtain ⟨ha, hs0, hs1⟩ := h
  have htr := boundedMap_getD ha "trust_in_government"
    (by norm_num : (0:ℚ) ≤ 80) (by norm_num : (80:ℚ) ≤ 100)
  simp only [InteractionEngine.updateResidentState, List.foldl_cons,
    List.foldl_nil]
  split_ifs with h1 h2 h3 h4 h5
  · refine ⟨ha, ?_, ?_⟩ <;> (dsimp only; rw [getD_setK_self])
    · exact le_min (by norm_num) (by linarith)
    · exact min_le_left _ _
  · refine ⟨?_, ?_, ?_⟩ <;> dsimp only
    · exact boundedMap_setK ha _
        (le_min (by norm_num) (by linarith [htr.1])) (min_le_left _ _)
    · exact hs0
    · exact hs1
  · exact ⟨ha, hs0, hs1⟩
  · refine ⟨?_, ?_, ?_⟩ <;> dsimp only
    · exact boundedMap_setK ha _ (le_max_left _ _)
        (max_le (by norm_num) (by linarith [htr.2]))
    · rw [getD_setK_self]
      exact le_max_left _ _
    · rw [getD_setK_self]
      exact max_le (by norm_num) (by linarith)
  · refine ⟨ha, ?_, ?_⟩ <;> (dsimp only; rw [getD_setK_self])
    · exact le_max_left _ _
    · exact max_le (by norm_num) (by linarith)
  · exact ⟨ha, hs0, hs1⟩

theorem updateResidentState_inv (r : Resident) (ints : List Interaction)
    (h : ResInv r) : ResInv (InteractionEngine.updateResidentState r ints) := by
  induction ints generalizing r with
  | nil => simpa [InteractionEngine.updateResidentState] using h
  | cons i t ih =>
    rw [updateResidentState_cons]
    exact ih _ (updateResidentState_single_inv r i h)

theorem applyAttrChanges_bounded (changes : List (String × ℚ))
    (attrs : List (String × ℚ)) (h : BoundedMap attrs 0 100) :
    BoundedMap (PolicyEngine.applyAttrChanges changes attrs) 0 100 := by
  induction changes generalizing attrs with
  | nil => simpa [PolicyEngine.applyAttrChanges] using h
  | cons kc t ih =>
    have hstep : BoundedMap
        (if ((attrs.find? (fun p => p.1 == kc.1)).isSome : Bool) then
          setK attrs kc.1 (min 100 (max 0 (getD attrs kc.1 0 + kc.2)))
        else attrs) 0 100 := by
      split_ifs with hf
      · exact boundedMap_setK h _
          (le_min (by norm_num) (le_max_left _ _)) (min_le_left _ _)
      · exact h
    have hrw : PolicyEngine.applyAttrChanges (kc :: t) attrs =
        PolicyEngine.applyAttrChanges t
          (if ((attrs.find? (fun p => p.1 == kc.1)).isSome : Bool) then
            setK attrs kc.1 (min 100 (max 0 (getD attrs kc.1 0 + kc.2)))
          else attrs) := by
      simp [PolicyEngine.applyAttrChanges]
    rw [hrw]
    exact ih _ hstep

theorem applyResidentPolicy_inv (policy_name : String) (cfg : Policy)
    (residents : List Resident) (h : ∀ r ∈ residents, ResInv r) :
    ∀ r2 ∈ PolicyEngine.applyResidentPolicy policy_name cfg residents,
      ResInv r2 := by
  intro r2 hr2
  rcases List.mem_map.mp hr2 with ⟨r, hr, rfl⟩
  obtain ⟨ha, hs0, hs1⟩ := h r hr
  by_cases ht : (if policy_name = "digital_literacy_training" then
      decide (getD r.attributes "information_literacy" 60 < 70)
    else true) = true
  · simp only [PolicyEngine.applyResidentPolicy, ht, if_true]
    exact ⟨applyAttrChanges_bounded _ _ ha, hs0, hs1⟩
  · simp only [PolicyEngine.applyResidentPolicy, ht, if_false]
    exact ⟨ha, hs0, hs1⟩

theorem applyGovEntSpecial_inv (policy_name : String) (e : Enterprise)
    (h : EntInv e) : EntInv (PolicyEngine.applyGovEntSpecial policy_name e) := by
  obtain ⟨ha, hi0, hi1, hm0, hm1⟩ := h
  have hc := boundedMap_getD ha "data_usage_compliance"
    (by norm_num : (0:ℚ) ≤ 90) (by norm_num : (90:ℚ) ≤ 100)
  simp only [PolicyEngine.applyGovEntSpecial]
  split_ifs with h1 h2 h3
  · exact ⟨boundedMap_setK ha _ (by norm_num) (by norm_num), hi0, hi1, hm0, hm1⟩
  · exact ⟨ha, hi0, hi1, hm0, hm1⟩
  · refine ⟨?_, hi0, hi1, hm0, hm1⟩
    exact boundedMap_setK ha _ (le_min (by norm_num) (by linarith [hc.1]))
      (min_le_left _ _)
  · exact ⟨ha, hi0, hi1, hm0, hm1⟩

theorem applySinglePolicy_inv (policy_name : String) (cfg : Policy) (w : World)
    (h : WorldInv w) :
    WorldInv (PolicyEngine.applySinglePolicy policy_name cfg w) := by
  obtain ⟨hg, he, hr⟩ := h
  obtain ⟨hga, hg0, hg1⟩ := hg
  simp only [PolicyEngine.applySinglePolicy]
  split_ifs with h1 h2 h3 h4 h5
  · exact ⟨⟨hga, hg0, hg1⟩, he, applyResidentPolicy_inv _ _ _ hr⟩
  · simp only [PolicyEngine.applyGovernmentEnterprisePolicy]
    refine ⟨⟨hga, hg0, hg1⟩, ?_, hr⟩
    intro e2 he2
    rcases List.mem_map.mp he2 with ⟨e, he1, rfl⟩
    exact applyGovEntSpecial_inv _ _ (he e he1)
  · exact ⟨⟨hga, hg0, hg1⟩, he, hr⟩
  · refine ⟨⟨?_, hg0, hg1⟩, he, hr⟩
    exact applyAttrChanges_bounded _ _ hga
  · refine ⟨⟨hga, hg0, hg1⟩, ?_, hr⟩
    intro e2 he2
    rcases List.mem_map.mp he2 with ⟨e, he1, rfl⟩
    obtain ⟨hea, hei0, hei1, hem0, hem1⟩ := he e he1
    exact ⟨applyAttrChanges_bounded _ _ hea, hei0, hei1, hem0, hem1⟩
  · exact ⟨⟨hga, hg0, hg1⟩, he, hr⟩

theorem applyOne_inv (policies : List (String × Policy)) (w : World)
    (policy_name : String) (h : WorldInv w) :
    WorldInv (PolicyEngine.applyOne policies w policy_name) := by
  rcases hfind : (policies.find? (fun p => p.1 == policy_name)).map
      (fun p => p.2) with _ | cfg
  · simpa [PolicyEngine.applyOne, hfind] using h
  · have h1 := applySinglePolicy_inv policy_name cfg w h
    by_cases hmem : policy_name ∈
        (PolicyEngine.applySinglePolicy policy_name cfg w).applied_policies
    · simpa [PolicyEngine.applyOne, hfind, hmem] using h1
    · obtain ⟨hg, he, hr⟩ := h1
      simpa [PolicyEngine.applyOne, hfind, hmem] using ⟨hg, he, hr⟩

theorem policyApply_inv (policies : List (String × Policy)) (w : World)
    (names : List String) (h : WorldInv w) :
    WorldInv (PolicyEngine.apply policies w names) := by
  induction names generalizing w with
  | nil => simpa [PolicyEngine.apply] using h
  | cons n t ih =>
    have h1 : PolicyEngine.apply policies w (n :: t) =
        PolicyEngine.apply policies (PolicyEngine.applyOne policies w n) t := by
      simp [PolicyEngine.apply]
    rw [h1]
    exact ih _ (applyOne_inv policies w n h)

theorem worldStep_inv (policies_cfg : List (String × Policy)) (w : World)
    (op : WorldOp) (h : WorldInv w) : WorldInv (worldStep policies_cfg w op) := by
  obtain ⟨hg, he, hr⟩ := h
  cases op with
  | fold interactions =>
    simp only [worldStep, InteractionEngine.updateAgentStates]
    refine ⟨updateGovernmentState_inv _ _ hg, ?_, ?_⟩
    · intro e2 he2
      rcases List.mem_map.mp he2 with ⟨e, he1, rfl⟩
      exact updateEnterpriseState_inv _ _ (he e he1)
    · intro r2 hr2
      rcases List.mem_map.mp hr2 with ⟨r, hr1, rfl⟩
      exact updateResidentState_inv _ _ (hr r hr1)
  | policies names =>
    exact policyApply_inv policies_cfg w names ⟨hg, he, hr⟩

/-- C4: along every interleaving of interaction-state-folding rounds and
policy applications, every declared bound is preserved: government
resource_utilization stays in [0, 1], enterprise innovation_level in
[0, 100] and market_share in [0, 1], resident satisfaction in [1, 5], and
every agent attribute map — so in particular every policy-adjusted
attribute and resident trust_in_government — stays in [0, 100]. -/
theorem C4_bounds_invariant (policies_cfg : List (String × Policy)) (w : World)
    (ops : List WorldOp) (h : WorldInv w) :
    WorldInv (worldRun policies_cfg w ops) ∧
    (0 ≤ getD (worldRun policies_cfg w ops).government.state
        "resource_utilization" (7/10) ∧
      getD (worldRun policies_cfg w ops).government.state
        "resource_utilization" (7/10) ≤ 1) ∧
    (∀ e ∈ (worldRun policies_cfg w ops).enterprises,
      0 ≤ getD e.state "innovation_level" 50 ∧
      getD e.state "innovation_level" 50 ≤ 100 ∧
      0 ≤ getD e.state "market_share" (1/10) ∧
      getD e.state "market_share" (1/10) ≤ 1) ∧
    (∀ r ∈ (worldRun policies_cfg w ops).residents,
      1 ≤ getD r.state "satisfaction" 3 ∧ getD r.state "satisfaction" 3 ≤ 5 ∧
      0 ≤ getD r.attributes "trust_in_government" 80 ∧
      getD r.attributes "trust_in_government" 80 ≤ 100) := by
  have hrun : WorldInv (worldRun policies_cfg w ops) := by
    induction ops generalizing w with
    | nil => simpa [worldRun] using h
    | cons op t ih =>
      have h1 : worldRun policies_cfg w (op :: t) =
          worldRun policies_cfg (worldStep policies_cfg w op) t := by
        simp [worldRun]
      rw [h1]
      exact ih _ (worldStep_inv policies_cfg w op h)
  obtain ⟨⟨hga, hg0, hg1⟩, he, hr⟩ := hrun
  refine ⟨⟨⟨hga, hg0, hg1⟩, he, hr⟩, ⟨hg0, hg1⟩, ?_, ?_⟩
  · intro e he1
    obtain ⟨hea, h2, h3, h4, h5⟩ := he e he1
    exact ⟨h2, h3, h4, h5⟩
  · intro r hr1
    obtain ⟨hra, h2, h3⟩ := hr r hr1
    have := boundedMap_getD hra "trust_in_government"
      (by norm_num : (0:ℚ) ≤ 80) (by norm_num : (80:ℚ) ≤ 100)
    exact ⟨h2, h3, this.1, this.2⟩

/-- C4 witness: the invariant theorem run on a concrete one-agent-per-role
world through one interaction round and one policy application. -/
theorem C4_bounds_invariant_witness :
    WorldInv
      { government := { state := [("resource_utilization", 7/10)] }
        enterprises := [{ agent_id := "enterprise_1",
                          state := [("innovation_level", 50), ("market_share", 1/10)] }]
        residents := [{ agent_id := "resident_1",
                        attributes := [("trust_in_government", 80)],
                        state := [("satisfaction", 3)] }] } ∧
    WorldInv (worldRun
      [("digital_literacy_training",
        { target := "resident",
          attribute_change := [("information_literacy", 20)] })]
      { government := { state := [("resource_utilization", 7/10)] }
        enterprises := [{ agent_id := "enterprise_1",
                          state := [("innovation_level", 50), ("market_share", 1/10)] }]
        residents := [{ agent_id := "resident_1",
                        attributes := [("trust_in_government", 80)],
                        state := [("satisfaction", 3)] }] }
      [WorldOp.fold [{ itype := some "procurement_cooperation",
                       outcome := some "success",
                       participants := ["government", "enterprise_1"] }],
       WorldOp.policies ["digital_literacy_training"]]) := by
  have hinv : WorldInv
      { government := { state := [("resource_utilization", 7/10)] }
        enterprises := [{ agent_id := "enterprise_1",
                          state := [("innovation_level", 50), ("market_share", 1/10)] }]
        residents := [{ agent_id := "resident_1",
                        attributes := [("trust_in_government", 80)],
                        state := [("satisfaction", 3)] }] } := by
    refine ⟨⟨?_, ?_, ?_⟩, ?_, ?_⟩ <;>
      simp [BoundedMap, getD, GovInv, EntInv, ResInv, List.find?] <;>
      norm_num
  exact ⟨hinv,
    (C4_bounds_invariant
      [("digital_literacy_training",
        { target := "resident",
          attribute_change := [("information_literacy", 20)] })]
      { government := { state := [("resource_utilization", 7/10)] }
        enterprises := [{ agent_id := "enterprise_1",
                          state := [("innovation_level", 50), ("market_share", 1/10)] }]
        residents := [{ agent_id := "resident_1",
                        attributes := [("trust_in_government", 80)],
                        state := [("satisfaction", 3)] }] }
      [WorldOp.fold [{ itype := some "procurement_cooperation",
                       outcome := some "success",
                       participants := ["government", "enterprise_1"] }],
       WorldOp.policies ["digital_literacy_training"]] hinv).1⟩

end CitySim
